import Mathlib

/-!
# Verification of the AIMMG scene-orchestration core

Shallow embedding of the scene orchestration engine of this repository:

* `src/store/memory.py` — `StoryMemory`, a SQLite-backed append-only
  transcript store (table `messages` with an `AUTOINCREMENT` primary key);
* `src/story_roadmap.py` — `create_moderator`, `create_characters`,
  `_msg_content` and the scene runner `run_scenes`.

Python state is passed explicitly: the SQLite database file is a `DbFile`
(its rows plus the durable `sqlite_sequence` counter backing
`AUTOINCREMENT`), a `StoryMemory` is that file plus the connection state
(`_conn is None` or an open connection), and each method returns the
updated object together with its Python return value.  External
nondeterminism (agent replies, wall-clock timestamps) enters as explicit
oracle arguments.
-/

set_option autoImplicit false

namespace AIMMG

/-- One row of the `messages` table (`src/store/memory.py`, `_ensure_table`).
`created_at` is the `datetime('now','localtime')` default, supplied by the
environment at insert time. -/
structure Message where
  id : Nat
  scene_id : String
  scene_name : String
  character_id : String
  character_name : String
  content : String
  created_at : String
  deriving DecidableEq, Repr

/-- The durable SQLite file `{story_id}.db`: the stored rows plus the
`sqlite_sequence` counter that backs `INTEGER PRIMARY KEY AUTOINCREMENT`
(SQLite persists this counter in the file, so it survives closing and
reopening the database; a fresh `INSERT` always gets a rowid one larger
than the largest ever allocated). -/
structure DbFile where
  rows : List Message
  seq : Nat
  deriving DecidableEq, Repr

/-- A fresh, never-written database file. -/
def DbFile.empty : DbFile := ⟨[], 0⟩

/-- `StoryMemory`: the handle object.  `conn = true` models
`self._conn is not None`. -/
structure StoryMemory where
  db : DbFile
  conn : Bool
  deriving DecidableEq, Repr

/-- `StoryMemory.__init__` / `_ensure_table`: connects (`_get_conn`) and
issues `CREATE TABLE IF NOT EXISTS`, which leaves an existing file's rows
and sequence counter untouched. -/
def StoryMemory.make (file : DbFile) : StoryMemory := ⟨file, true⟩

/-- `StoryMemory.add` (src/store/memory.py lines 37‑55): `_get_conn`
reconnects if needed, the `INSERT` allocates the next `AUTOINCREMENT`
rowid, `commit` makes the row durable, and the method returns
`cur.lastrowid or 0`.  `now` is the environment-supplied
`datetime('now','localtime')` value. -/
def StoryMemory.add (m : StoryMemory)
    (scene_id scene_name character_id character_name content now : String) :
    StoryMemory × Nat :=
  let rid := m.db.seq + 1
  let row : Message :=
    ⟨rid, scene_id, scene_name, character_id, character_name, content, now⟩
  (⟨⟨m.db.rows ++ [row], rid⟩, true⟩, if rid = 0 then 0 else rid)

/-- Insert a message into a list sorted by `id` (model of SQL
`ORDER BY id`). -/
def insertById (m : Message) : List Message → List Message
  | [] => [m]
  | x :: xs => if m.id ≤ x.id then m :: x :: xs else x :: insertById m xs

/-- Sort a list of messages by `id` (model of SQL `ORDER BY id`). -/
def sortById : List Message → List Message
  | [] => []
  | x :: xs => insertById x (sortById xs)

/-- `StoryMemory.list_by_scene` (lines 57‑69): `SELECT … WHERE scene_id = ?
ORDER BY id`.  Returns the (possibly reconnected) handle and the rows. -/
def StoryMemory.list_by_scene (m : StoryMemory) (scene_id : String) :
    StoryMemory × List Message :=
  (⟨m.db, true⟩, sortById (m.db.rows.filter (fun r => r.scene_id == scene_id)))

/-- `StoryMemory.list_all` (lines 71‑81): `SELECT … ORDER BY id`. -/
def StoryMemory.list_all (m : StoryMemory) : StoryMemory × List Message :=
  (⟨m.db, true⟩, sortById m.db.rows)

/-- `StoryMemory.close` (lines 83‑86): `if self._conn is not None:
self._conn.close(); self._conn = None`.  The Boolean records whether a
connection was actually released by this call. -/
def StoryMemory.close (m : StoryMemory) : StoryMemory × Bool :=
  if m.conn then (⟨m.db, false⟩, true) else (m, false)

/-- A client-visible store operation, for reasoning about whole traces:
an `add` call, an explicit `close`, or constructing a fresh `StoryMemory`
over the same database file (process restart on the same story id). -/
inductive StoreOp where
  | addMsg (scene_id scene_name character_id character_name content now : String)
  | closeStore
  | reopen
  deriving DecidableEq, Repr

/-- Run a trace of store operations, collecting the ids returned by the
`add` calls in order. -/
def runOps : StoryMemory → List StoreOp → StoryMemory × List Nat
  | m, [] => (m, [])
  | m, .addMsg a b c d e f :: ops =>
    let r := m.add a b c d e f
    let rest := runOps r.1 ops
    (rest.1, r.2 :: rest.2)
  | m, .closeStore :: ops => runOps (m.close).1 ops
  | m, .reopen :: ops => runOps (StoryMemory.make m.db) ops

/-! ## The orchestrator (`src/story_roadmap.py`) -/

/-- A `PlayerAgent` as the orchestrator sees it: its `name` and its object
identity.  Every `Character.__init__` constructs a fresh `PlayerAgent`, so
object identity is modelled by a tag that is unique per constructed
character (`0` is the moderator's agent); the `c.agent is agent` test in
`run_scenes` compares these tags. -/
structure Agent where
  name : String
  tag : Nat
  deriving DecidableEq, Repr

/-- `entity.Character`: id, name, the system prompt fixed at construction,
and the freshly constructed agent. -/
structure Character where
  id : String
  name : String
  system_prompt : String
  agent : Agent
  deriving DecidableEq, Repr

/-- One entry of a character's `"scenes"` list in the story JSON. -/
structure CharScene where
  prompts : List String
  tasks : List String
  deriving DecidableEq, Repr

/-- One entry of the story JSON's `"characters"` list.  `scenes = none`
models a character object without a `"scenes"` key. -/
structure CharacterDef where
  id : String
  name : String
  description : String
  introduction : String
  scenes : Option (List CharScene)
  deriving DecidableEq, Repr

/-- One entry of the story JSON's `"master"` list.  `name`/`prompts`/
`notes` are `none` when the corresponding key is absent. -/
structure SceneDef where
  id : String
  name : Option String
  prompts : Option (List String)
  notes : Option (List String)
  choices : List (String × String)
  deriving DecidableEq, Repr

/-- The loaded story JSON, as `run_scenes` consumes it. -/
structure StoryDef where
  id : String
  name : String
  characters : List CharacterDef
  master : List SceneDef
  deriving DecidableEq, Repr

/-- The f-string system prompt built in `create_characters`
(src/story_roadmap.py lines 93‑105). -/
def charSystemPrompt (name description introduction background tasks : String) :
    String :=
  "你现在是一名剧本杀的玩家.\n你的名字叫" ++ name ++ ",\n\n你的个人信息如下:\n"
    ++ description ++ "\n" ++ introduction ++ "\n\n你的背景故事如下:\n"
    ++ background ++ "\n\n你目前的任务如下:\n" ++ tasks ++ "\n"

/-- The `Character(...)` construction inside `create_characters`, for a
definition whose `scenes` list starts with `s0`; `tag` is the fresh
identity of the constructed `PlayerAgent` (named after the character). -/
def mkCharacter (tag : Nat) (cd : CharacterDef) (s0 : CharScene) : Character :=
  let background := String.intercalate ", " s0.prompts
  let tasks := String.intercalate "\n" s0.tasks
  ⟨cd.id, cd.name,
    charSystemPrompt cd.name cd.description cd.introduction background tasks,
    ⟨cd.name, tag⟩⟩

/-- Python-`dict` assignment `result[k] = v` on an insertion-ordered
association list: an existing key keeps its position and gets the new
value; a new key is appended at the end. -/
def dictInsert (k : String) (v : Character) :
    List (String × Character) → List (String × Character)
  | [] => [(k, v)]
  | (k', v') :: rest =>
    if k = k' then (k', v) :: rest else (k', v') :: dictInsert k v rest

/-- `create_characters` loop (src/story_roadmap.py lines 79‑107): skip a
character whose `"scenes"` key is absent or whose list is empty, otherwise
construct a `Character` from `scenes[0]` and store it under its id.  `i`
numbers the input entries so that each constructed agent gets a fresh
identity tag `i + 1`. -/
def create_characters_aux :
    Nat → List CharacterDef → List (String × Character) →
      List (String × Character)
  | _, [], acc => acc
  | i, cd :: rest, acc =>
    match cd.scenes with
    | none => create_characters_aux (i + 1) rest acc
    | some [] => create_characters_aux (i + 1) rest acc
    | some (s0 :: _) =>
      create_characters_aux (i + 1) rest
        (dictInsert cd.id (mkCharacter (i + 1) cd s0) acc)

/-- `create_characters(characters, config) → Dict[str, Character]`. -/
def create_characters (defs : List CharacterDef) : List (String × Character) :=
  create_characters_aux 0 defs []

/-- Does `create_characters` keep this entry?  (`"scenes"` present and
non-empty.) -/
def hasScenes (cd : CharacterDef) : Bool :=
  match cd.scenes with
  | none => false
  | some [] => false
  | some (_ :: _) => true

/-- `create_moderator(config)` (lines 75‑76): id `"moderator"`, name
`"moderator"`, fixed host persona; its agent carries identity tag `0`. -/
def create_moderator : Character :=
  ⟨"moderator", "moderator", "你现在是一名剧本杀的主持人", ⟨"moderator", 0⟩⟩

/-- One block of a structured reply content list: `getattr(block, "text",
str(block))` reads `text` when present, else the block's `str()`. -/
structure Block where
  text : Option String
  py_str : String
  deriving DecidableEq, Repr

/-- The `content` attribute of a reply `Msg`: a plain string, a list of
blocks, or some other object whose `str()` is `py_str`. -/
inductive MsgContent where
  | str (s : String)
  | blocks (bs : List Block)
  | otherObj (py_str : String)
  deriving DecidableEq, Repr

/-- A reply message from the agent runtime: its `content` attribute when
present, and the `str()` of the whole message (used when absent). -/
structure ReplyMsg where
  content : Option MsgContent
  py_str : String
  deriving DecidableEq, Repr

/-- `getattr(block, "text", str(block))`. -/
def blockText (b : Block) : String := b.text.getD b.py_str

/-- `_msg_content(reply_msg)` (src/story_roadmap.py lines 110‑115):
`getattr(reply_msg, "content", str(reply_msg))`; a list of blocks is
joined with single spaces; a non-string, non-list content falls back to
`str(content)`. -/
def msg_content (m : ReplyMsg) : String :=
  match m.content with
  | none => m.py_str
  | some (.str s) => s
  | some (.blocks bs) => String.intercalate " " (bs.map blockText)
  | some (.otherObj s) => s

/-- The Python exceptions that can escape `run_scenes`. -/
inductive RunError where
  /-- `story["master"][1]` with fewer than two master scenes. -/
  | indexError
  /-- `json.dump(payload)` called without a file argument. -/
  | typeError
  /-- a participant's `respond` call failed (`AgentCallError`). -/
  | agentCallError
  deriving DecidableEq, Repr

/-- The lead prompt built at line 127:
`f"现在是第二幕, {', '.join(scene['prompts'])}\n\n注意：…"`. -/
def scenePrompt (ps : List String) : String :=
  "现在是第二幕, " ++ String.intercalate ", " ps
    ++ "\n\n注意：时刻要注意自己当前要完成的任务，不要偏离任务目标！"

/-- `json.dump({"type": "text", "text": prompt})` at lines 131‑134.
CPython's `json.dump(obj, fp, …)` requires a writable file object as its
second positional argument; called with the payload dict alone it raises
`TypeError: dump() missing 1 required positional argument: 'fp'` and
produces no string.  (`json.dumps` is the serialising variant; the source
calls `json.dump`.) -/
def json_dump_no_fp (_payload : List (String × String)) :
    Except RunError String :=
  .error .typeError

/-- The participant list built at lines 119‑120:
`[moderator.agent, *[c.agent for c in characters.values()]]`. -/
def participantsOf (moderator : Character)
    (chars : List (String × Character)) : List Agent :=
  moderator.agent :: chars.map (fun kv => kv.2.agent)

/-- The turn loop at lines 135‑146: for each hub participant, skip the
one named `"moderator"`, await its reply (`env` keyed by agent identity;
a failure is the propagated `AgentCallError`), extract the text, find the
`Character` owning this agent by identity, and if found log the reply.
`clock` supplies each insert's `created_at`. -/
def turnLoop (chars : List (String × Character)) (scene_id scene_name : String)
    (prompt : String) (env : Nat → Except Unit ReplyMsg)
    (clock : Nat → String) :
    List Agent → StoryMemory → StoryMemory × Option RunError
  | [], memory => (memory, none)
  | agent :: rest, memory =>
    if agent.name = "moderator" then
      turnLoop chars scene_id scene_name prompt env clock rest memory
    else
      match env agent.tag with
      | .error _ => (memory, some .agentCallError)
      | .ok reply_msg =>
        let content := msg_content reply_msg
        match chars.find? (fun kv => kv.2.agent.tag == agent.tag) with
        | none => turnLoop chars scene_id scene_name prompt env clock rest memory
        | some kv =>
          let r := memory.add scene_id scene_name kv.2.id kv.2.name content
            (clock memory.db.seq)
          turnLoop chars scene_id scene_name prompt env clock rest r.1

/-- The body of `run_scenes` for the selected scene (lines 122‑147): read
`scene["id"]` and `scene.get("name", "场景 2")`, open the `MsgHub` over
`participantsOf` (membership fixed for the scene; the `async with` closes
it on every exit path, normal or exceptional), and if the scene has a
`"prompts"` key build the lead prompt, serialise the payload with
`json.dump` — which raises `TypeError` before `memory.add` is called —
then (were that to succeed) log the moderator message and run the turn
loop.  A scene without `"prompts"` does nothing. -/
def process_scene (scene : SceneDef) (moderator : Character)
    (chars : List (String × Character)) (env : Nat → Except Unit ReplyMsg)
    (clock : Nat → String) (memory : StoryMemory) :
    StoryMemory × Option RunError :=
  let participants := participantsOf moderator chars
  let scene_id := scene.id
  let scene_name := scene.name.getD "场景 2"
  match scene.prompts with
  | none => (memory, none)
  | some ps =>
    let prompt := scenePrompt ps
    match json_dump_no_fp [("type", "text"), ("text", prompt)] with
    | .error e => (memory, some e)
    | .ok payload =>
      let r := memory.add scene_id scene_name moderator.id moderator.name
        payload (clock memory.db.seq)
      turnLoop chars scene_id scene_name prompt env clock participants r.1

/-- `run_scenes(story, moderator, characters, memory)` (lines 118‑147):
build the participant list, select `story["master"][1]` — an `IndexError`
when the master list has fewer than two scenes — and process that single
scene.  The result is the final store state paired with the escaped
exception, if any. -/
def run_scenes (story : StoryDef) (moderator : Character)
    (chars : List (String × Character)) (env : Nat → Except Unit ReplyMsg)
    (clock : Nat → String) (memory : StoryMemory) :
    StoryMemory × Option RunError :=
  match story.master.get? 1 with
  | none => (memory, some .indexError)
  | some scene => process_scene scene moderator chars env clock memory

/-! ## Concrete sample data -/

/-- Character definition `A`, with a non-empty `scenes` list. -/
def cdA : CharacterDef := ⟨"A", "A", "dA", "iA", some [⟨["bgA"], ["tA"]⟩]⟩

/-- Character definition `B`, with a non-empty `scenes` list. -/
def cdB : CharacterDef := ⟨"B", "B", "dB", "iB", some [⟨["bgB"], ["tB"]⟩]⟩

/-- Character definition `C`, with a non-empty `scenes` list. -/
def cdC : CharacterDef := ⟨"C", "C", "dC", "iC", some [⟨["bgC"], ["tC"]⟩]⟩

/-- Character definition `D`, with a non-empty `scenes` list. -/
def cdD : CharacterDef := ⟨"D", "D", "dD", "iD", some [⟨["bgD"], ["tD"]⟩]⟩

/-- Character definition `E`, with a non-empty `scenes` list. -/
def cdE : CharacterDef := ⟨"E", "E", "dE", "iE", some [⟨["bgE"], ["tE"]⟩]⟩

/-- Character definition `NB`: no `"scenes"` key, so `create_characters`
skips it. -/
def cdNB : CharacterDef := ⟨"NB", "NB", "dNB", "iNB", none⟩

/-- An opening master scene (index 0, never selected by `run_scenes`). -/
def scene0 : SceneDef := ⟨"S0", some "opening", some ["intro"], none, []⟩

/-- The targeted master scene `S1` of the spec's concrete scenario, with
`prompts = ["start"]`. -/
def scene1 : SceneDef := ⟨"S1", some "S1", some ["start"], none, []⟩

/-- Story of the spec's concrete scenario: characters `[A, B]`, master
scenes `[scene0, scene1]` so that `scene1` is `master[1]`. -/
def storyAB : StoryDef := ⟨"sid", "story", [cdA, cdB], [scene0, scene1]⟩

/-- An agent runtime in which every `respond` call succeeds with the plain
text reply `"hi"`. -/
def envOk : Nat → Except Unit ReplyMsg := fun _ => .ok ⟨some (.str "hi"), "r"⟩

/-- A wall clock that always reads `"t"`. -/
def clk : Nat → String := fun _ => "t"

/-- A store over a fresh database file. -/
def memE : StoryMemory := StoryMemory.make DbFile.empty

/-! ## Claim theorems -/

/-- C1.  The spec's concrete scenario (`Story` with characters `[A, B]`,
targeted scene with `prompts = ["start"]`, every agent call succeeding)
does NOT produce the three Messages `(moderator, lead prompt)`, `(A, …)`,
`(B, …)` with ids 1, 2, 3: the call
`json.dump({"type": "text", "text": prompt})` at
src/story_roadmap.py line 131 raises
`TypeError: dump() missing 1 required positional argument: 'fp'` before
`memory.add` runs, so the run terminates with the store still empty and
zero Messages logged. -/
theorem run_scene_concrete_scenario_crashes :
    run_scenes storyAB create_moderator (create_characters [cdA, cdB]) envOk
        clk memE = (memE, some RunError.typeError)
      ∧ (run_scenes storyAB create_moderator (create_characters [cdA, cdB])
          envOk clk memE).1.db.rows = [] :=
  ⟨rfl, rfl⟩

/-- Story with the single character `C` and a targeted scene with
`prompts = ["p"]`. -/
def storyC : StoryDef :=
  ⟨"sid2", "story2", [cdC], [scene0, ⟨"S1", some "S1", some ["p"], none, []⟩]⟩

/-- C2.  A processed scene with a non-empty `prompts` list and one
non-moderator participant whose call would succeed appends 0 Messages, not
`1 + 1 = 2`: the `json.dump` `TypeError` at src/story_roadmap.py line 131
aborts the scene before the first `add`. -/
theorem run_scene_appends_no_messages :
    (run_scenes storyC create_moderator (create_characters [cdC]) envOk clk
        memE).1.db.rows.length = 0
      ∧ (run_scenes storyC create_moderator (create_characters [cdC]) envOk
          clk memE).2 = some RunError.typeError :=
  ⟨rfl, rfl⟩

/-- An agent runtime giving each character a distinct reply. -/
def envTagged : Nat → Except Unit ReplyMsg :=
  fun t => .ok ⟨some (.str ("reply" ++ toString t)), "r"⟩

/-- C3.  In a run over characters `[A, B]` with distinct successful
replies, no character-authored Message appears in the store at all —
the `json.dump` `TypeError` aborts the scene before any turn is taken —
so the store never exhibits the declared-order sequence of character
Messages the claim describes. -/
theorem run_scene_logs_no_character_turns :
    ((run_scenes storyAB create_moderator (create_characters [cdA, cdB])
        envTagged clk memE).1.db.rows.filter
          (fun r => r.character_id != "moderator")) = []
      ∧ (run_scenes storyAB create_moderator (create_characters [cdA, cdB])
          envTagged clk memE).2 = some RunError.typeError :=
  ⟨rfl, rfl⟩

/-- An agent runtime whose replies are structurally empty: the `content`
attribute is an empty block list, so `_msg_content` extracts `""`. -/
def envEmptyReply : Nat → Except Unit ReplyMsg :=
  fun _ => .ok ⟨some (.blocks []), "Msg()"⟩

/-- C4.  Even though `_msg_content` extracts the empty string from a
structurally empty reply (first conjunct), no Message at all is appended
for the participant's turn: the run dies with the `json.dump` `TypeError`
before any turn is taken, so the per-scene character-Message count is 0,
not the number of non-moderator participants. -/
theorem empty_reply_turn_not_logged :
    msg_content ⟨some (.blocks []), "Msg()"⟩ = ""
      ∧ (run_scenes storyC create_moderator (create_characters [cdC])
          envEmptyReply clk memE).1.db.rows = []
      ∧ (run_scenes storyC create_moderator (create_characters [cdC])
          envEmptyReply clk memE).2 = some RunError.typeError :=
  ⟨rfl, rfl, rfl⟩

/-- Story with five characters `A..E`. -/
def story5 : StoryDef :=
  ⟨"sid5", "story5", [cdA, cdB, cdC, cdD, cdE],
    [scene0, ⟨"S1", some "S1", some ["go"], none, []⟩]⟩

/-- An agent runtime in which the third scheduled participant call (agent
tag 3) raises `AgentCallError` and every other call succeeds. -/
def envFailThird : Nat → Except Unit ReplyMsg :=
  fun t => if t = 3 then .error () else .ok ⟨some (.str "ok"), "r"⟩

/-- C5.  With five scheduled participants and the third call failing, the
store does NOT end up holding the moderator's lead prompt plus the first
two replies: the run never reaches any participant call — the `json.dump`
`TypeError` at line 131 terminates it with the store empty — so the
scene's outcome is `typeError` with zero Messages, not `AgentCallError`
with three. -/
theorem failure_isolation_store_empty :
    (run_scenes story5 create_moderator
        (create_characters [cdA, cdB, cdC, cdD, cdE]) envFailThird clk
        memE).1.db.rows = []
      ∧ (run_scenes story5 create_moderator
          (create_characters [cdA, cdB, cdC, cdD, cdE]) envFailThird clk
          memE).2 = some RunError.typeError :=
  ⟨rfl, rfl⟩

/-- Membership in `insertById`. -/
theorem mem_insertById {a m : Message} {l : List Message} :
    a ∈ insertById m l ↔ a = m ∨ a ∈ l := by
  induction l with
  | nil => simp [insertById]
  | cons x xs ih =>
    by_cases h : m.id ≤ x.id
    · simp [insertById, h]
    · simp only [insertById, if_neg h, List.mem_cons, ih]
      tauto

/-- `sortById` permutes membership. -/
theorem mem_sortById {a : Message} {l : List Message} :
    a ∈ sortById l ↔ a ∈ l := by
  induction l with
  | nil => simp [sortById]
  | cons x xs ih => simp [sortById, mem_insertById, ih]

/-- C6.  Round-trip: after `add(scene_id = S, …, content = T)` succeeds,
`list_by_scene S` on the resulting store (no intervening writes) contains
a row whose `content` equals `T` exactly and whose `scene_id` and
`character_id` are the stored `S` and `C`. -/
theorem add_list_by_scene_roundtrip (m : StoryMemory)
    (S sn C cn T now : String) :
    ∃ row ∈ ((m.add S sn C cn T now).1.list_by_scene S).2,
      row.content = T ∧ row.scene_id = S ∧ row.character_id = C := by
  refine ⟨⟨m.db.seq + 1, S, sn, C, cn, T, now⟩, ?_, rfl, rfl, rfl⟩
  simp [StoryMemory.add, StoryMemory.list_by_scene, mem_sortById,
    List.mem_filter]

/-- `close` and `make` leave the database file untouched; a fresh `add`
returns `seq + 1` and bumps the counter.  Main invariant behind the
strictly-increasing-id property: every id produced by a trace strictly
exceeds the starting sequence counter, and the produced ids form a
strictly increasing chain. -/
theorem runOps_ids_chain (ops : List StoreOp) :
    ∀ m : StoryMemory, List.Chain' (· < ·) (runOps m ops).2 ∧
      ∀ i ∈ (runOps m ops).2, m.db.seq < i := by
  induction ops with
  | nil => intro m; simp [runOps]
  | cons op ops ih =>
    intro m
    cases op with
    | addMsg a b c d e f =>
      have hseq : ((m.add a b c d e f).1).db.seq = m.db.seq + 1 := rfl
      have hid : (m.add a b c d e f).2 = m.db.seq + 1 := by
        simp [StoryMemory.add]
      have h := ih (m.add a b c d e f).1
      rw [hseq] at h
      have hrun : runOps m (.addMsg a b c d e f :: ops)
          = ((runOps (m.add a b c d e f).1 ops).1,
             (m.add a b c d e f).2 :: (runOps (m.add a b c d e f).1 ops).2) :=
        rfl
      rw [hrun]
      constructor
      · rw [List.chain'_cons']
        refine ⟨fun y hy => ?_, h.1⟩
        have hy' : y ∈ (runOps (m.add a b c d e f).1 ops).2 :=
          List.mem_of_mem_head? hy
        have := h.2 y hy'
        rw [hid]
        omega
      · intro i hi
        rw [List.mem_cons, hid] at hi
        rcases hi with h1 | h2
        · omega
        · have := h.2 i h2; omega
    | closeStore =>
      have hdb : ((m.close).1).db = m.db := by
        by_cases h : m.conn <;> simp [StoryMemory.close, h]
      have h := ih (m.close).1
      rw [hdb] at h
      exact h
    | reopen =>
      exact ih (StoryMemory.make m.db)

/-- C7.  Over any trace of store operations — `add` calls, `close` calls,
and reconstructions of the `StoryMemory` over the same database file
(process restart on the same story id; SQLite's `AUTOINCREMENT` counter
lives in the file) — the ids returned by the successive `add` calls form a
strictly increasing sequence, so no id is ever reused and every id
returned after a reopen exceeds every id assigned before it. -/
theorem store_ids_strictly_increasing (m : StoryMemory) (ops : List StoreOp) :
    List.Chain' (· < ·) (runOps m ops).2 :=
  (runOps_ids_chain ops m).1

/-- C9.  `close` is idempotent: a second `close` leaves the store in the
same state as the first, it releases no connection (`False` result), and
after one `close` the connection slot is empty — so the connection
acquired by `_get_conn` is released at most once. -/
theorem close_idempotent (m : StoryMemory) :
    ((m.close).1.close).1 = (m.close).1
      ∧ ((m.close).1.close).2 = false
      ∧ ((m.close).1).conn = false := by
  by_cases h : m.conn <;> simp [StoryMemory.close, h]

/-- C10.  `run_scenes` targets exactly `story["master"][1]`: when the
master list has fewer than two scenes it terminates with an `IndexError`
and the store untouched (no hub opened, nothing appended), and when a
second scene exists the whole run is precisely the processing of that
scene. -/
theorem run_scenes_selects_second_scene (story : StoryDef)
    (moderator : Character) (chars : List (String × Character))
    (env : Nat → Except Unit ReplyMsg) (clock : Nat → String)
    (mem : StoryMemory) :
    (story.master.length < 2 →
        run_scenes story moderator chars env clock mem
          = (mem, some RunError.indexError))
      ∧ ∀ scene, story.master.get? 1 = some scene →
          run_scenes story moderator chars env clock mem
            = process_scene scene moderator chars env clock mem := by
  constructor
  · intro h
    have hn : story.master.get? 1 = none := by
      rw [List.get?_eq_none]
      omega
    unfold run_scenes
    rw [hn]
  · intro scene h
    unfold run_scenes
    rw [h]

/-- Story whose master list holds a single scene. -/
def storyShort : StoryDef := ⟨"sidS", "short", [cdA], [scene0]⟩

/-- Witness for C10 at concrete inputs: a one-scene story yields the
`IndexError` outcome with the store untouched, and the two-scene story
`storyAB` runs exactly `process_scene scene1`. -/
theorem run_scenes_selects_second_scene_witness :
    run_scenes storyShort create_moderator (create_characters [cdA]) envOk clk
        memE = (memE, some RunError.indexError)
      ∧ run_scenes storyAB create_moderator (create_characters [cdA, cdB])
          envOk clk memE
          = process_scene scene1 create_moderator
              (create_characters [cdA, cdB]) envOk clk memE :=
  ⟨(run_scenes_selects_second_scene storyShort create_moderator
      (create_characters [cdA]) envOk clk memE).1 (by decide),
   (run_scenes_selects_second_scene storyAB create_moderator
      (create_characters [cdA, cdB]) envOk clk memE).2 scene1 rfl⟩

/-- C8, counterexample.  The Broadcast Hub's participant set is NOT
"all Characters known to the Story plus the moderator": `create_characters`
silently skips a character whose definition has no `"scenes"` key (or an
empty `scenes` list), so with characters `[A, NB]` — `NB` lacking
`"scenes"` — the hub is opened over `[moderator, A]` only. -/
theorem hub_all_characters_counterexample :
    (participantsOf create_moderator (create_characters [cdA, cdNB])).map
        Agent.name
      ≠ "moderator" :: [cdA, cdNB].map CharacterDef.name := by
  decide

/-- `result[k] = v` on a dict not containing `k` appends the pair at the
end. -/
theorem dictInsert_append (k : String) (v : Character)
    (l : List (String × Character)) (h : ∀ p ∈ l, p.1 ≠ k) :
    dictInsert k v l = l ++ [(k, v)] := by
  induction l with
  | nil => rfl
  | cons p rest ih =>
    have hk : ¬ k = p.1 := fun he => h p (List.mem_cons_self p rest) he.symm
    simpa [dictInsert, hk] using
      ih (fun q hq => h q (List.mem_cons_of_mem p hq))

/-- The `create_characters` loop, on pairwise-distinct character ids,
produces the dict whose keys are exactly the ids of the kept definitions
(those with a non-empty `scenes` list) in declaration order, and whose
values' agents bear the kept definitions' names in the same order. -/
theorem create_characters_aux_maps (defs : List CharacterDef) :
    ∀ (i : Nat) (acc : List (String × Character)),
      (∀ p ∈ acc, ∀ cd ∈ defs, p.1 ≠ cd.id) →
      (defs.map CharacterDef.id).Pairwise (· ≠ ·) →
      (create_characters_aux i defs acc).map Prod.fst
          = acc.map Prod.fst ++ (defs.filter hasScenes).map CharacterDef.id
        ∧ (create_characters_aux i defs acc).map (fun kv => kv.2.agent.name)
          = acc.map (fun kv => kv.2.agent.name)
            ++ (defs.filter hasScenes).map CharacterDef.name := by
  induction defs with
  | nil => intro i acc _ _; simp [create_characters_aux]
  | cons cd rest ih =>
    intro i acc hdisj hpw
    rw [List.map_cons, List.pairwise_cons] at hpw
    cases hs : cd.scenes with
    | none =>
      have h := ih (i + 1) acc
        (fun p hp cd' hcd' => hdisj p hp cd' (List.mem_cons_of_mem cd hcd'))
        hpw.2
      simpa [create_characters_aux, hs, List.filter_cons, hasScenes] using h
    | some l =>
      cases l with
      | nil =>
        have h := ih (i + 1) acc
          (fun p hp cd' hcd' => hdisj p hp cd' (List.mem_cons_of_mem cd hcd'))
          hpw.2
        simpa [create_characters_aux, hs, List.filter_cons, hasScenes] using h
      | cons s0 ss =>
        have hins : dictInsert cd.id (mkCharacter (i + 1) cd s0) acc
            = acc ++ [(cd.id, mkCharacter (i + 1) cd s0)] :=
          dictInsert_append _ _ _
            (fun p hp => hdisj p hp cd (List.mem_cons_self cd rest))
        have hdisj' : ∀ p ∈ acc ++ [(cd.id, mkCharacter (i + 1) cd s0)],
            ∀ cd' ∈ rest, p.1 ≠ cd'.id := by
          intro p hp cd' hcd'
          rcases List.mem_append.mp hp with hp1 | hp2
          · exact hdisj p hp1 cd' (List.mem_cons_of_mem cd hcd')
          · have hp3 : p = (cd.id, mkCharacter (i + 1) cd s0) := by
              simpa using hp2
            rw [hp3]
            exact hpw.1 cd'.id (List.mem_map_of_mem CharacterDef.id hcd')
        have h := ih (i + 1)
          (acc ++ [(cd.id, mkCharacter (i + 1) cd s0)]) hdisj' hpw.2
        simp only [create_characters_aux, hs]
        rw [hins, h.1, h.2]
        simp [List.filter_cons, hasScenes, hs, mkCharacter]

/-- Every row present after running the turn loop either was already in
the store or is authored by one of the characters of the `characters`
dict: the loop skips the agent named `"moderator"` and only ever calls
`memory.add` with the id and name of a dict entry found by agent
identity. -/
theorem turnLoop_rows_sources (chars : List (String × Character))
    (sid sn prompt : String) (env : Nat → Except Unit ReplyMsg)
    (clock : Nat → String) :
    ∀ (ps : List Agent) (mem : StoryMemory) (r : Message),
      r ∈ (turnLoop chars sid sn prompt env clock ps mem).1.db.rows →
      r ∈ mem.db.rows ∨ ∃ kv ∈ chars, r.character_id = kv.2.id := by
  intro ps
  induction ps with
  | nil => intro mem r hr; exact .inl hr
  | cons agent rest ih =>
    intro mem r hr
    by_cases hname : agent.name = "moderator"
    · rw [turnLoop, if_pos hname] at hr
      exact ih mem r hr
    · rw [turnLoop, if_neg hname] at hr
      split at hr
      · exact .inl hr
      · split at hr
        · exact ih mem r hr
        · next kv hfind =>
          rcases ih _ r hr with h1 | h2
          · simp only [StoryMemory.add, List.mem_append,
              List.mem_singleton] at h1
            rcases h1 with h3 | h4
            · exact .inl h3
            · exact .inr ⟨kv, List.mem_of_find?_eq_some hfind, by rw [h4]⟩
          · exact .inr h2

/-- C8, amended.  The Broadcast Hub's participant set is the moderator
plus exactly those Characters whose definition carries a non-empty
`scenes` list (the ones `create_characters` keeps, in declaration order;
characters without scenes are excluded), and the turn loop never logs a
Message authored by the moderator: every row it appends is authored by
one of the kept characters. -/
theorem hub_membership_amended (defs : List CharacterDef)
    (hids : (defs.map CharacterDef.id).Pairwise (· ≠ ·)) :
    (participantsOf create_moderator (create_characters defs)).map Agent.name
        = "moderator" :: (defs.filter hasScenes).map CharacterDef.name
      ∧ ∀ (sid sn prompt : String) (env : Nat → Except Unit ReplyMsg)
          (clock : Nat → String) (ps : List Agent) (mem : StoryMemory)
          (r : Message),
          r ∈ (turnLoop (create_characters defs) sid sn prompt env clock ps
              mem).1.db.rows →
          r ∈ mem.db.rows
            ∨ ∃ kv ∈ create_characters defs, r.character_id = kv.2.id := by
  constructor
  · have h := (create_characters_aux_maps defs 0 []
      (fun p hp => absurd hp (List.not_mem_nil p)) hids).2
    simp only [List.map_nil, List.nil_append] at h
    simp only [participantsOf, List.map_cons, List.map_map, create_moderator]
    rw [← h, create_characters]
    rfl
  · exact fun sid sn prompt env clock ps mem r hr =>
      turnLoop_rows_sources (create_characters defs) sid sn prompt env clock
        ps mem r hr

/-- A pre-existing transcript row, for the C8 witness. -/
def msgW : Message := ⟨1, "S", "S", "A", "A", "c", "t"⟩

/-- A store already holding `msgW`. -/
def memW : StoryMemory := ⟨⟨[msgW], 1⟩, true⟩

/-- An agent runtime in which every call fails. -/
def envFail : Nat → Except Unit ReplyMsg := fun _ => .error ()

/-- Witness for the amended C8 at concrete inputs: with characters
`[A, NB]` (`NB` lacking scenes, ids distinct) the hub participant names
are `["moderator", "A"]`, and a row surviving a turn-loop run over a
pre-populated store is either pre-existing or character-authored. -/
theorem hub_membership_amended_witness :
    (participantsOf create_moderator (create_characters [cdA, cdNB])).map
        Agent.name
        = "moderator" :: ([cdA, cdNB].filter hasScenes).map CharacterDef.name
      ∧ (msgW ∈ memW.db.rows
          ∨ ∃ kv ∈ create_characters [cdA, cdNB],
              msgW.character_id = kv.2.id) :=
  ⟨(hub_membership_amended [cdA, cdNB] (by decide)).1,
   (hub_membership_amended [cdA, cdNB] (by decide)).2 "S" "S" "p" envFail clk
     (participantsOf create_moderator (create_characters [cdA, cdNB])) memW
     msgW (by decide)⟩

end AIMMG
